import Mathlib

/-
Verification development for the session-continuity subsystem of the
mock-interview application.

The embedding models:
  * the session record (`InterviewSession`) with the fields the code reads
    and writes, plus an `extra` association list standing for any further
    JS-object fields (carried along by the spread operator);
  * the two browser stores (`sessionStorage` / `localStorage`) as maps from
    string keys to stored records, together with the remembered-identity
    value kept in `localStorage` under the key currentUserId;
  * the session-manager operations `saveInterviewSession`,
    `loadInterviewSession`, `clearInterviewSession`, `upgradeSessionFormat`,
    `getSessionStats`, `recoverSession`;
  * the auth-side operations `clearUserInterviewData`, the SIGNED_IN
    handler of `useAuth`, and `checkInterviewState`.

Timestamps are integers (milliseconds, as produced by Date.now()).  The
ambient clock is passed explicitly as a `now` parameter.  Storage write
failures are modelled by an explicit error-injection argument: the real
setItem can throw, and the code catches those exceptions.
-/

namespace Interview

/-- Aggregate response-time metrics added by the version 2.0 schema. -/
structure InterviewMetrics where
  totalResponseTime : Int
  averageResponseLength : Int
  deepDiveCount : Int
deriving Repr, DecidableEq

/-- One question/answer record of the interview progression. -/
structure InterviewQuestion where
  question : String
  answer : String
  timestamp : Int
deriving Repr, DecidableEq

/-- Interview configuration chosen at setup. -/
structure InterviewSettings where
  industry : String
  interviewType : String
  questionCount : Int
deriving Repr, DecidableEq

/-- The persisted session entity.  Optional fields are absent in older
records; `extra` models any other JS-object fields, which the spread
operator preserves verbatim. -/
structure InterviewSession where
  settings : InterviewSettings
  questions : List InterviewQuestion
  currentQuestionIndex : Int
  isCompleted : Bool
  startTime : Int
  lastUpdated : Option Int
  version : Option String
  conversationQuality : Option String
  coveredTopics : Option (List String)
  interviewMetrics : Option InterviewMetrics
  extra : List (String × String)
deriving Repr, DecidableEq

/-- Key of the primary copy in sessionStorage. -/
def SESSION_KEY : String := "interviewSession"

/-- Key of the backup copy in localStorage. -/
def BACKUP_KEY : String := "interviewSessionBackup"

/-- Session timeout: 2 * 60 * 60 * 1000 milliseconds. -/
def SESSION_TIMEOUT : Int := 2 * 60 * 60 * 1000

/-- The two browser stores and the remembered identity.  The stores are
maps from string keys to parsed session records; currentUserId is the
value localStorage holds under its own dedicated key. -/
structure StorageState where
  sessionStore : String → Option InterviewSession
  localStore : String → Option InterviewSession
  currentUserId : Option String

/-- sessionStorage.setItem. -/
def setSessionItem (st : StorageState) (k : String) (v : InterviewSession) : StorageState :=
  { st with sessionStore := fun k2 => if k2 = k then some v else st.sessionStore k2 }

/-- localStorage.setItem. -/
def setLocalItem (st : StorageState) (k : String) (v : InterviewSession) : StorageState :=
  { st with localStore := fun k2 => if k2 = k then some v else st.localStore k2 }

/-- sessionStorage.removeItem. -/
def removeSessionItem (st : StorageState) (k : String) : StorageState :=
  { st with sessionStore := fun k2 => if k2 = k then none else st.sessionStore k2 }

/-- localStorage.removeItem. -/
def removeLocalItem (st : StorageState) (k : String) : StorageState :=
  { st with localStore := fun k2 => if k2 = k then none else st.localStore k2 }

/-- An exception thrown by a storage write; a DOMException carries its
numeric code (22 is the capacity-exceeded code the code tests for). -/
inductive JsError where
  | domException (code : Nat)
  | other
deriving Repr, DecidableEq

/-- The capacity-exceeded test performed in the catch clause of save:
error instanceof DOMException and error.code equal to 22. -/
def isQuotaExceeded : JsError → Bool
  | .domException c => c == 22
  | .other => false

/-- Error injection for the two setItem calls inside save: whether the
primary (sessionStorage) write and the backup (localStorage) write throw. -/
structure SaveInjection where
  primaryErr : Option JsError
  backupErr : Option JsError
deriving Repr, DecidableEq

/-- The record actually written by save: the input session with
lastUpdated set to the save time and version set to the constant 2.0. -/
def stampSession (now : Int) (s : InterviewSession) : InterviewSession :=
  { s with lastUpdated := some now, version := some "2.0" }

/-- Body of the try block of saveInterviewSession: build the stamped
record, write it to sessionStorage, then to localStorage; a throw aborts
the remainder but keeps the writes made so far.  Returns the resulting
state and the thrown error, if any. -/
def saveAttempt (now : Int) (s : InterviewSession) (inj : SaveInjection)
    (st : StorageState) : StorageState × Option JsError :=
  match inj.primaryErr with
  | some e => (st, some e)
  | none =>
    let st1 := setSessionItem st SESSION_KEY (stampSession now s)
    match inj.backupErr with
    | some e => (st1, some e)
    | none => (setLocalItem st1 BACKUP_KEY (stampSession now s), none)

/-- Outcome of saveInterviewSession: the storage state afterwards and
whether the user-visible alert was shown.  The function always returns
normally (the try/catch swallows every thrown error). -/
structure SaveResult where
  state : StorageState
  alerted : Bool

/-- saveInterviewSession: stamps the session with lastUpdated = now and
version = 2.0, writes primary then backup; the catch clause shows the
alert exactly when the thrown error is a DOMException with code 22. -/
def saveInterviewSession (now : Int) (s : InterviewSession) (inj : SaveInjection)
    (st : StorageState) : SaveResult :=
  match saveAttempt now s inj st with
  | (st1, none) => ⟨st1, false⟩
  | (st1, some e) => ⟨st1, isQuotaExceeded e⟩

/-- clearInterviewSession: removes the primary key from sessionStorage and
the backup key from localStorage. -/
def clearInterviewSession (st : StorageState) : StorageState :=
  removeLocalItem (removeSessionItem st SESSION_KEY) BACKUP_KEY

/-- upgradeSessionFormat: spreads the old record and then overwrites
version, lastUpdated, conversationQuality, coveredTopics and
interviewMetrics with the version 2.0 values, whatever the record held. -/
def upgradeSessionFormat (now : Int) (oldSession : InterviewSession) : InterviewSession :=
  { oldSession with
    version := some "2.0"
    lastUpdated := some now
    conversationQuality := some "moderate"
    coveredTopics := some []
    interviewMetrics := some ⟨0, 0, 0⟩ }

/-- Lexicographic comparison of character lists, the order JavaScript
uses for its string less-than. -/
def charListLt : List Char → List Char → Bool
  | _, [] => false
  | [], _ :: _ => true
  | a :: as, b :: bs => decide (a < b) || (a == b && charListLt as bs)

/-- JavaScript string less-than: lexicographic on the code units. -/
def jsStringLt (a b : String) : Bool := charListLt a.data b.data

/-- The version test of load: session.version falsy (absent or the empty
string) or lexicographically below the string 2.0. -/
def needsUpgrade : Option String → Bool
  | none => true
  | some v => v == "" || jsStringLt v "2.0"

/-- The expiry reference instant: session.lastUpdated with JavaScript
falsy fallback to session.startTime (0 counts as falsy). -/
def effectiveLastUpdated (s : InterviewSession) : Int :=
  match s.lastUpdated with
  | some v => if v = 0 then s.startTime else v
  | none => s.startTime

/-- Result of loadInterviewSession: the returned record (null = none), the
storage state afterwards, and whether the backup store was consulted. -/
structure LoadResult where
  session : Option InterviewSession
  state : StorageState
  readBackup : Bool

/-- The part of load that runs once a record has been found (from either
store): the expiry check comes first, then the version check with upgrade
and immediate re-save. -/
def loadFound (now : Int) (st : StorageState) (fromBackup : Bool)
    (s0 : InterviewSession) : LoadResult :=
  if now - effectiveLastUpdated s0 > SESSION_TIMEOUT then
    ⟨none, clearInterviewSession st, fromBackup⟩
  else if needsUpgrade s0.version then
    let s1 := upgradeSessionFormat now s0
    ⟨some s1, (saveInterviewSession now s1 ⟨none, none⟩ st).state, fromBackup⟩
  else
    ⟨some s0, st, fromBackup⟩

/-- loadInterviewSession: read primary; if absent read backup and, when
found there, re-write it to primary; then expiry check and version
upgrade. -/
def loadInterviewSession (now : Int) (st : StorageState) : LoadResult :=
  match st.sessionStore SESSION_KEY with
  | some s0 => loadFound now st false s0
  | none =>
    match st.localStore BACKUP_KEY with
    | none => ⟨none, st, true⟩
    | some s0 => loadFound now (setSessionItem st SESSION_KEY s0) true s0

/-- The record load would operate on: the primary copy, else the backup. -/
def storedRecord (st : StorageState) : Option InterviewSession :=
  match st.sessionStore SESSION_KEY with
  | some s => some s
  | none => st.localStore BACKUP_KEY

/-- recoverSession: reads the backup directly, restores it into primary
verbatim and returns it; null when the backup is absent. -/
def recoverSession (st : StorageState) : Option InterviewSession × StorageState :=
  match st.localStore BACKUP_KEY with
  | some s => (some s, setSessionItem st SESSION_KEY s)
  | none => (none, st)

/-- The record getSessionStats returns. -/
structure SessionStats where
  hasActiveSession : Bool
  sessionAge : Int
  questionCount : Nat
  completionRate : Rat
deriving Repr, DecidableEq

/-- getSessionStats: derived read-only view over loadInterviewSession;
the zeroed result when load returns null.  Division is exact rational
division, matching the JS float result on the values of interest. -/
def getSessionStats (now : Int) (st : StorageState) : SessionStats × StorageState :=
  let r := loadInterviewSession now st
  match r.session with
  | none => (⟨false, 0, 0, 0⟩, r.state)
  | some s =>
    (⟨true, now - s.startTime, s.questions.length,
      ((s.questions.length : Rat) / ((s.settings.questionCount : Int) : Rat)) * 100⟩,
     r.state)

/-- Identity-scoped primary key: interview_{userId}_session. -/
def userSessionKey (userId : String) : String := "interview_" ++ userId ++ "_session"

/-- Identity-scoped backup key: interview_{userId}_backup. -/
def userBackupKey (userId : String) : String := "interview_" ++ userId ++ "_backup"

/-- Remove one key from both stores (the cleanup loop calls removeItem on
localStorage and sessionStorage for each key). -/
def removeBoth (st : StorageState) (k : String) : StorageState :=
  removeSessionItem (removeLocalItem st k) k

/-- clearUserInterviewData: removes the two identity-scoped keys and the
two legacy unscoped keys from both stores. -/
def clearUserInterviewData (userId : String) (st : StorageState) : StorageState :=
  [userSessionKey userId, userBackupKey userId, SESSION_KEY, BACKUP_KEY].foldl removeBoth st

/-- The SIGNED_IN branch of the auth-state listener: read the remembered
identity; if one exists (truthy, so not the empty string) and differs from
the new identity, purge the previous identity's data; then record the new
identity as current. -/
def signedInHandler (newId : String) (st : StorageState) : StorageState :=
  let st1 :=
    match st.currentUserId with
    | some prev => if prev ≠ "" ∧ prev ≠ newId then clearUserInterviewData prev st else st
    | none => st
  { st1 with currentUserId := some newId }

/-- checkInterviewState: false for a falsy userId, else true exactly when
sessionStorage holds the identity-scoped session key or localStorage holds
the identity-scoped backup key. -/
def checkInterviewState (userId : String) (st : StorageState) : Bool :=
  if userId = "" then false
  else
    match st.sessionStore (userSessionKey userId) with
    | some _ => true
    | none => (st.localStore (userBackupKey userId)).isSome

/-- The session record AppContent builds before calling save: version is
the literal 3.0, startTime is the first question's timestamp with falsy
fallback to Date.now(). -/
def buildAppSession (now : Int) (settings : InterviewSettings)
    (qs : List InterviewQuestion) : InterviewSession :=
  { settings := settings
    questions := qs
    currentQuestionIndex := (qs.length : Int) - 1
    isCompleted := false
    startTime :=
      match qs.head? with
      | some q => if q.timestamp = 0 then now else q.timestamp
      | none => now
    lastUpdated := some now
    version := some "3.0"
    conversationQuality := none
    coveredTopics := none
    interviewMetrics := none
    extra := [] }

/-- Storage with nothing stored and no remembered identity. -/
def emptyState : StorageState := ⟨fun _ => none, fun _ => none, none⟩

/-- A sequence of saveInterviewSession calls applied in order. -/
def applySaves (ops : List (Int × InterviewSession × SaveInjection))
    (st : StorageState) : StorageState :=
  ops.foldl (fun acc op => (saveInterviewSession op.1 op.2.1 op.2.2 acc).state) st

/-
Helper lemmas shared by several claims.
-/

/-- When lastUpdated is not the falsy value 0, the JavaScript fallback
coincides with the plain option default. -/
lemma effectiveLastUpdated_eq_getD (s : InterviewSession) (h : s.lastUpdated ≠ some 0) :
    effectiveLastUpdated s = s.lastUpdated.getD s.startTime := by
  unfold effectiveLastUpdated
  cases hu : s.lastUpdated with
  | none => rfl
  | some v =>
    have hv : v ≠ 0 := by intro h0; exact h (h0 ▸ hu)
    simp [hv]

/-- After clearInterviewSession the primary key is gone. -/
lemma clear_primary (st : StorageState) :
    (clearInterviewSession st).sessionStore SESSION_KEY = none := by
  simp [clearInterviewSession, removeSessionItem, removeLocalItem]

/-- After clearInterviewSession the backup key is gone. -/
lemma clear_backup (st : StorageState) :
    (clearInterviewSession st).localStore BACKUP_KEY = none := by
  simp [clearInterviewSession, removeSessionItem, removeLocalItem]

/-- Re-stamping a freshly upgraded record changes nothing: upgrade already
sets the fields save stamps, at the same instant. -/
lemma stamp_upgrade (now : Int) (s : InterviewSession) :
    stampSession now (upgradeSessionFormat now s) = upgradeSessionFormat now s := rfl

/-- C1: for every stored session record (with a genuine, non-zero
lastUpdated when present), loadInterviewSession treats the record as
expired exactly when now minus lastUpdated (or now minus startTime when
lastUpdated is absent) exceeds SESSION_TIMEOUT = 7200000 ms: load returns
null precisely in that case, and then both the primary and the backup copy
are purged.  In particular a record with lastUpdated = now - 2h - 1ms is
not returned while one with lastUpdated = now - 2h + 1ms is. -/
theorem load_expiry_boundary (now : Int) (s : InterviewSession) (st : StorageState)
    (hs : storedRecord st = some s) (h0 : s.lastUpdated ≠ some 0) :
    ((loadInterviewSession now st).session = none
        ↔ now - s.lastUpdated.getD s.startTime > SESSION_TIMEOUT)
      ∧ (now - s.lastUpdated.getD s.startTime > SESSION_TIMEOUT →
          (loadInterviewSession now st).state.sessionStore SESSION_KEY = none
            ∧ (loadInterviewSession now st).state.localStore BACKUP_KEY = none) := by
  have heff := effectiveLastUpdated_eq_getD s h0
  cases hp : st.sessionStore SESSION_KEY with
  | some s0 =>
    have hs0 : s0 = s := by simpa [storedRecord, hp] using hs
    subst hs0
    have hload : loadInterviewSession now st = loadFound now st false s0 := by
      simp only [loadInterviewSession, hp]
    rw [hload]
    unfold loadFound
    rw [heff]
    split_ifs with hex hup
    · exact ⟨by simp [hex], fun _ => ⟨clear_primary st, clear_backup st⟩⟩
    · simp [hex]
    · simp [hex]
  | none =>
    have hb : st.localStore BACKUP_KEY = some s := by
      simpa [storedRecord, hp] using hs
    have hload : loadInterviewSession now st
        = loadFound now (setSessionItem st SESSION_KEY s) true s := by
      simp only [loadInterviewSession, hp, hb]
    rw [hload]
    unfold loadFound
    rw [heff]
    split_ifs with hex hup
    · exact ⟨by simp [hex],
        fun _ => ⟨clear_primary (setSessionItem st SESSION_KEY s),
                  clear_backup (setSessionItem st SESSION_KEY s)⟩⟩
    · simp [hex]
    · simp [hex]

/-- Witness for C1 at a concrete boundary input: a record whose
lastUpdated is exactly 2 hours and 1 millisecond in the past is not
returned. -/
theorem load_expiry_boundary_witness :
    (loadInterviewSession 7200002
      ⟨fun k => if k = SESSION_KEY
                then some ⟨⟨"IT", "personality", 5⟩, [], -1, false, 1, some 1, some "2.0",
                           none, none, none, []⟩
                else none,
       fun _ => none, none⟩).session = none := by
  refine (load_expiry_boundary 7200002
    ⟨⟨"IT", "personality", 5⟩, [], -1, false, 1, some 1, some "2.0", none, none, none, []⟩
    _ ?_ ?_).1.mpr ?_
  · decide
  · decide
  · decide

/-- C2: when the primary store has no record but the durable store holds a
valid (current-version), non-expired record, load returns that record
after consulting the backup, re-writes it to the primary key, and an
immediately subsequent load succeeds from primary without reading the
backup and without further state change. -/
theorem load_backup_selfheal (now : Int) (s : InterviewSession) (st : StorageState)
    (hp : st.sessionStore SESSION_KEY = none)
    (hb : st.localStore BACKUP_KEY = some s)
    (hfresh : ¬ now - effectiveLastUpdated s > SESSION_TIMEOUT)
    (hver : needsUpgrade s.version = false) :
    (loadInterviewSession now st).session = some s
      ∧ (loadInterviewSession now st).readBackup = true
      ∧ (loadInterviewSession now st).state.sessionStore SESSION_KEY = some s
      ∧ (loadInterviewSession now (loadInterviewSession now st).state).session = some s
      ∧ (loadInterviewSession now (loadInterviewSession now st).state).readBackup = false
      ∧ (loadInterviewSession now (loadInterviewSession now st).state).state
          = (loadInterviewSession now st).state := by
  have hload1 : loadInterviewSession now st
      = ⟨some s, setSessionItem st SESSION_KEY s, true⟩ := by
    simp [loadInterviewSession, hp, hb, loadFound, hfresh, hver]
  have hkey : (setSessionItem st SESSION_KEY s).sessionStore SESSION_KEY = some s := by
    simp [setSessionItem]
  have hload2 : loadInterviewSession now (setSessionItem st SESSION_KEY s)
      = ⟨some s, setSessionItem st SESSION_KEY s, false⟩ := by
    simp [loadInterviewSession, hkey, loadFound, hfresh, hver]
  rw [hload1]
  exact ⟨rfl, rfl, hkey, by rw [hload2], by rw [hload2], by rw [hload2]⟩

/-- Witness for C2 at a concrete input: an empty primary store, a fresh
version 2.0 record in the backup store. -/
theorem load_backup_selfheal_witness :
    (loadInterviewSession 2000
      ⟨fun _ => none,
       fun k => if k = BACKUP_KEY
                then some ⟨⟨"IT", "personality", 5⟩, [], -1, false, 900, some 1000, some "2.0",
                           none, none, none, []⟩
                else none, none⟩).session
      = some ⟨⟨"IT", "personality", 5⟩, [], -1, false, 900, some 1000, some "2.0",
              none, none, none, []⟩ :=
  (load_backup_selfheal 2000
    ⟨⟨"IT", "personality", 5⟩, [], -1, false, 900, some 1000, some "2.0", none, none, none, []⟩
    _ rfl (by decide) (by decide) (by decide)).1

/-- C3: if identity a is remembered as current and the SIGNED_IN handler
runs for identity b with b distinct from a (and a a genuine, non-empty
identity), then afterwards no session data scoped to a is readable: the
identity-scoped keys of a and the legacy unscoped keys are gone from both
stores, loadInterviewSession returns null, checkInterviewState for a is
false, recoverSession returns null, and b is recorded as the current
identity. -/
theorem identity_isolation (now : Int) (a b : String) (st : StorageState)
    (hcur : st.currentUserId = some a) (hne : a ≠ b) (ha : a ≠ "") :
    (signedInHandler b st).currentUserId = some b
      ∧ (signedInHandler b st).sessionStore (userSessionKey a) = none
      ∧ (signedInHandler b st).localStore (userSessionKey a) = none
      ∧ (signedInHandler b st).sessionStore (userBackupKey a) = none
      ∧ (signedInHandler b st).localStore (userBackupKey a) = none
      ∧ (signedInHandler b st).sessionStore SESSION_KEY = none
      ∧ (signedInHandler b st).localStore SESSION_KEY = none
      ∧ (signedInHandler b st).sessionStore BACKUP_KEY = none
      ∧ (signedInHandler b st).localStore BACKUP_KEY = none
      ∧ (loadInterviewSession now (signedInHandler b st)).session = none
      ∧ checkInterviewState a (signedInHandler b st) = false
      ∧ (recoverSession (signedInHandler b st)).1 = none := by
  have hh : signedInHandler b st
      = { clearUserInterviewData a st with currentUserId := some b } := by
    simp [signedInHandler, hcur, ha, hne]
  rw [hh]
  have hsess : ∀ k, (clearUserInterviewData a st).sessionStore k
      = if k = userSessionKey a ∨ k = userBackupKey a ∨ k = SESSION_KEY ∨ k = BACKUP_KEY
        then none else st.sessionStore k := by
    intro k
    simp only [clearUserInterviewData, List.foldl, removeBoth, removeSessionItem,
      removeLocalItem]
    split_ifs <;> tauto
  have hloc : ∀ k, (clearUserInterviewData a st).localStore k
      = if k = userSessionKey a ∨ k = userBackupKey a ∨ k = SESSION_KEY ∨ k = BACKUP_KEY
        then none else st.localStore k := by
    intro k
    simp only [clearUserInterviewData, List.foldl, removeBoth, removeSessionItem,
      removeLocalItem]
    split_ifs <;> tauto
  refine ⟨rfl, ?_, ?_, ?_, ?_, ?_, ?_, ?_, ?_, ?_, ?_, ?_⟩
  · simp [hsess]
  · simp [hloc]
  · simp [hsess]
  · simp [hloc]
  · simp [hsess]
  · simp [hloc]
  · simp [hsess]
  · simp [hloc]
  · simp [loadInterviewSession, hsess, hloc]
  · simp [checkInterviewState, ha, hsess, hloc]
  · simp [recoverSession, hloc]

/-- Witness for C3 at a concrete input: identity alice has a remembered
identity and stored data everywhere; after the handler runs for bob, the
scoped check for alice fails and bob is current. -/
theorem identity_isolation_witness :
    (signedInHandler "bob"
      ⟨fun _ => some ⟨⟨"IT", "personality", 5⟩, [], -1, false, 1, some 1, some "2.0",
                      none, none, none, []⟩,
       fun _ => some ⟨⟨"IT", "personality", 5⟩, [], -1, false, 1, some 1, some "2.0",
                      none, none, none, []⟩,
       some "alice"⟩).currentUserId = some "bob"
      ∧ checkInterviewState "alice"
          (signedInHandler "bob"
            ⟨fun _ => some ⟨⟨"IT", "personality", 5⟩, [], -1, false, 1, some 1, some "2.0",
                            none, none, none, []⟩,
             fun _ => some ⟨⟨"IT", "personality", 5⟩, [], -1, false, 1, some 1, some "2.0",
                            none, none, none, []⟩,
             some "alice"⟩) = false := by
  have h := identity_isolation 0 "alice" "bob"
    ⟨fun _ => some ⟨⟨"IT", "personality", 5⟩, [], -1, false, 1, some 1, some "2.0",
                    none, none, none, []⟩,
     fun _ => some ⟨⟨"IT", "personality", 5⟩, [], -1, false, 1, some 1, some "2.0",
                    none, none, none, []⟩,
     some "alice"⟩ rfl (by decide) (by decide)
  exact ⟨h.1, h.2.2.2.2.2.2.2.2.2.2.1⟩

/-- A record that already carries values for the version 2.0 fields. -/
def richRecord : InterviewSession :=
  { settings := ⟨"IT", "personality", 5⟩
    questions := []
    currentQuestionIndex := -1
    isCompleted := false
    startTime := 1
    lastUpdated := some 5
    version := some "1.0"
    conversationQuality := some "deep"
    coveredTopics := some ["teamwork"]
    interviewMetrics := some ⟨7, 8, 9⟩
    extra := [("note", "x")] }

/-- C4 counterexample: upgradeSessionFormat does not preserve fields the
record already had — an existing conversationQuality of deep becomes
moderate, an existing lastUpdated of 5 becomes the upgrade instant, an
existing coveredTopics becomes empty and existing metrics are zeroed. -/
theorem upgrade_clobbers_fields :
    richRecord.conversationQuality = some "deep"
      ∧ (upgradeSessionFormat 100 richRecord).conversationQuality = some "moderate"
      ∧ richRecord.lastUpdated = some 5
      ∧ (upgradeSessionFormat 100 richRecord).lastUpdated = some 100
      ∧ richRecord.coveredTopics = some ["teamwork"]
      ∧ (upgradeSessionFormat 100 richRecord).coveredTopics = some []
      ∧ richRecord.interviewMetrics = some ⟨7, 8, 9⟩
      ∧ (upgradeSessionFormat 100 richRecord).interviewMetrics = some ⟨0, 0, 0⟩ :=
  ⟨rfl, rfl, rfl, rfl, rfl, rfl, rfl, rfl⟩

/-- C4 amended: the upgrade preserves settings, questions,
currentQuestionIndex, isCompleted, startTime and all unrecognized fields,
but unconditionally overwrites version, lastUpdated, conversationQuality,
coveredTopics and interviewMetrics with the version 2.0 values, whatever
the record held before. -/
theorem upgrade_field_behaviour (now : Int) (r : InterviewSession) :
    (upgradeSessionFormat now r).settings = r.settings
      ∧ (upgradeSessionFormat now r).questions = r.questions
      ∧ (upgradeSessionFormat now r).currentQuestionIndex = r.currentQuestionIndex
      ∧ (upgradeSessionFormat now r).isCompleted = r.isCompleted
      ∧ (upgradeSessionFormat now r).startTime = r.startTime
      ∧ (upgradeSessionFormat now r).extra = r.extra
      ∧ (upgradeSessionFormat now r).version = some "2.0"
      ∧ (upgradeSessionFormat now r).lastUpdated = some now
      ∧ (upgradeSessionFormat now r).conversationQuality = some "moderate"
      ∧ (upgradeSessionFormat now r).coveredTopics = some []
      ∧ (upgradeSessionFormat now r).interviewMetrics = some ⟨0, 0, 0⟩ :=
  ⟨rfl, rfl, rfl, rfl, rfl, rfl, rfl, rfl, rfl, rfl, rfl⟩

/-- A record that is already at the current schema version. -/
def currentRecord : InterviewSession :=
  { settings := ⟨"finance", "case", 3⟩
    questions := []
    currentQuestionIndex := -1
    isCompleted := false
    startTime := 1
    lastUpdated := some 5
    version := some "2.0"
    conversationQuality := some "deep"
    coveredTopics := some ["ethics"]
    interviewMetrics := some ⟨1, 2, 3⟩
    extra := [] }

/-- C6 counterexample: upgrading an already-current record (version 2.0)
is not a no-op — the result differs from the input. -/
theorem upgrade_current_not_noop :
    currentRecord.version = some "2.0"
      ∧ upgradeSessionFormat 100 currentRecord ≠ currentRecord :=
  ⟨rfl, by decide⟩

/-- C6 amended: at any fixed instant the upgrade is idempotent —
upgrading twice equals upgrading once — but it is not a no-op on
already-current records: it overwrites version, lastUpdated,
conversationQuality, coveredTopics and interviewMetrics regardless of the
record's version (load only invokes it for records whose version is
absent or below 2.0). -/
theorem upgrade_idempotent_fixed_time (now : Int) (r : InterviewSession) :
    upgradeSessionFormat now (upgradeSessionFormat now r) = upgradeSessionFormat now r
      ∧ (upgradeSessionFormat now r).version = some "2.0"
      ∧ (upgradeSessionFormat now r).lastUpdated = some now
      ∧ (upgradeSessionFormat now r).conversationQuality = some "moderate"
      ∧ (upgradeSessionFormat now r).coveredTopics = some []
      ∧ (upgradeSessionFormat now r).interviewMetrics = some ⟨0, 0, 0⟩ :=
  ⟨rfl, rfl, rfl, rfl, rfl, rfl⟩

/-- A legacy record: no version tag, none of the version 2.0 fields. -/
def legacyRecord : InterviewSession :=
  { settings := ⟨"IT", "personality", 5⟩
    questions := []
    currentQuestionIndex := -1
    isCompleted := false
    startTime := 1000
    lastUpdated := some 1000
    version := none
    conversationQuality := none
    coveredTopics := none
    interviewMetrics := none
    extra := [] }

/-- Storage whose primary copy is the legacy record. -/
def legacyState : StorageState :=
  ⟨fun k => if k = SESSION_KEY then some legacyRecord else none, fun _ => none, none⟩

/-- C5 counterexample: load does not upgrade before the expiry check.  At
time 10000000 the stored legacy record is expired by its raw lastUpdated
and load returns null, even though the upgraded record would not be
expired (the upgrade resets lastUpdated to the current time) — so under
the claimed upgrade-first ordering load would have returned it. -/
theorem load_expiry_first_counterexample :
    (loadInterviewSession 10000000 legacyState).session = none
      ∧ ¬ (10000000 : Int) - effectiveLastUpdated (upgradeSessionFormat 10000000 legacyRecord)
          > SESSION_TIMEOUT := by
  constructor
  · decide
  · decide

/-- C5 amended: when load finds a record it performs the expiry check
first, on the raw record: if expired it clears both copies and returns
null without upgrading; otherwise, if the version is absent or below 2.0
it upgrades and immediately persists the upgraded record via save to both
copies (so the stored copies match the returned record), and if the
version is current it returns the record as is. -/
theorem load_expiry_then_upgrade (now : Int) (s : InterviewSession) (st : StorageState)
    (hs : storedRecord st = some s) :
    (now - effectiveLastUpdated s > SESSION_TIMEOUT →
        (loadInterviewSession now st).session = none
          ∧ (loadInterviewSession now st).state.sessionStore SESSION_KEY = none
          ∧ (loadInterviewSession now st).state.localStore BACKUP_KEY = none)
      ∧ (¬ now - effectiveLastUpdated s > SESSION_TIMEOUT → needsUpgrade s.version = true →
        (loadInterviewSession now st).session = some (upgradeSessionFormat now s)
          ∧ (loadInterviewSession now st).state.sessionStore SESSION_KEY
              = some (upgradeSessionFormat now s)
          ∧ (loadInterviewSession now st).state.localStore BACKUP_KEY
              = some (upgradeSessionFormat now s))
      ∧ (¬ now - effectiveLastUpdated s > SESSION_TIMEOUT → needsUpgrade s.version = false →
        (loadInterviewSession now st).session = some s) := by
  cases hp : st.sessionStore SESSION_KEY with
  | some s0 =>
    have hs0 : s0 = s := by simpa [storedRecord, hp] using hs
    subst hs0
    have hload : loadInterviewSession now st = loadFound now st false s0 := by
      simp only [loadInterviewSession, hp]
    rw [hload]
    unfold loadFound
    split_ifs with hex hup
    · exact ⟨fun _ => ⟨rfl, clear_primary st, clear_backup st⟩,
        fun hne _ => absurd hex hne, fun hne _ => absurd hex hne⟩
    · refine ⟨fun hexp => absurd hexp hex,
        fun _ _ => ⟨rfl, ?_, ?_⟩, fun _ hfalse => by simp [hup] at hfalse⟩
      · simp [saveInterviewSession, saveAttempt, setSessionItem, setLocalItem, stamp_upgrade]
      · simp [saveInterviewSession, saveAttempt, setSessionItem, setLocalItem, stamp_upgrade]
    · exact ⟨fun hexp => absurd hexp hex, fun _ htrue => absurd htrue hup, fun _ _ => rfl⟩
  | none =>
    have hb : st.localStore BACKUP_KEY = some s := by
      simpa [storedRecord, hp] using hs
    have hload : loadInterviewSession now st
        = loadFound now (setSessionItem st SESSION_KEY s) true s := by
      simp only [loadInterviewSession, hp, hb]
    rw [hload]
    unfold loadFound
    split_ifs with hex hup
    · exact ⟨fun _ => ⟨rfl, clear_primary (setSessionItem st SESSION_KEY s),
          clear_backup (setSessionItem st SESSION_KEY s)⟩,
        fun hne _ => absurd hex hne, fun hne _ => absurd hex hne⟩
    · refine ⟨fun hexp => absurd hexp hex,
        fun _ _ => ⟨rfl, ?_, ?_⟩, fun _ hfalse => by simp [hup] at hfalse⟩
      · simp [saveInterviewSession, saveAttempt, setSessionItem, setLocalItem, stamp_upgrade]
      · simp [saveInterviewSession, saveAttempt, setSessionItem, setLocalItem, stamp_upgrade]
    · exact ⟨fun hexp => absurd hexp hex, fun _ htrue => absurd htrue hup, fun _ _ => rfl⟩

/-- Witness for the amended C5 at a concrete input: a fresh legacy record
is upgraded on load and the upgraded record is what both copies then
hold. -/
theorem load_expiry_then_upgrade_witness :
    (loadInterviewSession 2000 legacyState).session
        = some (upgradeSessionFormat 2000 legacyRecord)
      ∧ (loadInterviewSession 2000 legacyState).state.sessionStore SESSION_KEY
        = some (upgradeSessionFormat 2000 legacyRecord) := by
  have h := (load_expiry_then_upgrade 2000 legacyRecord legacyState (by decide)).2.1
    (by decide) (by decide)
  exact ⟨h.1, h.2.1⟩

/-- C7: saveInterviewSession always returns normally — it is a total
function into SaveResult, never propagating a thrown storage error — and
the user-visible alert is shown exactly when the write that threw raised a
DOMException with the capacity-exceeded code 22; every other error kind is
swallowed silently. -/
theorem save_quota_alert (now : Int) (s : InterviewSession) (inj : SaveInjection)
    (st : StorageState) :
    (saveInterviewSession now s inj st).alerted = true
      ↔ (inj.primaryErr = some (JsError.domException 22)
          ∨ (inj.primaryErr = none ∧ inj.backupErr = some (JsError.domException 22))) := by
  rcases inj with ⟨p, b⟩
  cases p with
  | some e =>
    cases e with
    | domException c =>
      simp [saveInterviewSession, saveAttempt, isQuotaExceeded, Nat.beq_eq_true_eq]
    | other =>
      simp [saveInterviewSession, saveAttempt, isQuotaExceeded]
  | none =>
    cases b with
    | some e =>
      cases e with
      | domException c =>
        simp [saveInterviewSession, saveAttempt, isQuotaExceeded, setSessionItem,
          Nat.beq_eq_true_eq]
      | other =>
        simp [saveInterviewSession, saveAttempt, isQuotaExceeded, setSessionItem]
    | none =>
      simp [saveInterviewSession, saveAttempt, setSessionItem, setLocalItem]

/-- C9: saveInterviewSession overwrites the session's version field with
the constant 2.0 and its lastUpdated with the save instant before writing
both copies, whatever values the input carried — in particular the
version 3.0 records AppContent builds are persisted with version 2.0, and
both stored copies carry exactly version 2.0 after a successful save. -/
theorem save_stamps_version (now : Int) (s : InterviewSession) (st : StorageState) :
    (saveInterviewSession now s ⟨none, none⟩ st).state.sessionStore SESSION_KEY
        = some (stampSession now s)
      ∧ (saveInterviewSession now s ⟨none, none⟩ st).state.localStore BACKUP_KEY
        = some (stampSession now s)
      ∧ (stampSession now s).version = some "2.0"
      ∧ (stampSession now s).lastUpdated = some now
      ∧ ∀ stg qs, (buildAppSession now stg qs).version = some "3.0" := by
  refine ⟨?_, ?_, rfl, rfl, fun _ _ => rfl⟩
  · simp [saveInterviewSession, saveAttempt, setSessionItem, setLocalItem]
  · simp [saveInterviewSession, saveAttempt, setSessionItem, setLocalItem]

/-- C8: getSessionStats never fails — it returns the zeroed record when
no non-expired session can be loaded, and otherwise hasActiveSession with
sessionAge = now - startTime, the number of stored questions, and
completionRate = questionCount / settings.questionCount * 100. -/
theorem stats_shape (now : Int) (st : StorageState) :
    ((loadInterviewSession now st).session = none →
        (getSessionStats now st).1 = ⟨false, 0, 0, 0⟩)
      ∧ (∀ s, (loadInterviewSession now st).session = some s →
        (getSessionStats now st).1
          = ⟨true, now - s.startTime, s.questions.length,
             ((s.questions.length : Rat) / ((s.settings.questionCount : Int) : Rat)) * 100⟩) := by
  constructor
  · intro h
    simp [getSessionStats, h]
  · intro s h
    simp [getSessionStats, h]

/-- A fresh version 2.0 session with two answered questions out of a
configured five. -/
def twoOfFiveRecord : InterviewSession :=
  { settings := ⟨"IT", "personality", 5⟩
    questions := [⟨"q1", "a1", 1000⟩, ⟨"q2", "a2", 1200⟩]
    currentQuestionIndex := 1
    isCompleted := false
    startTime := 1000
    lastUpdated := some 1500
    version := some "2.0"
    conversationQuality := none
    coveredTopics := none
    interviewMetrics := none
    extra := [] }

/-- Storage whose primary copy is the two-of-five session. -/
def twoOfFiveState : StorageState :=
  ⟨fun k => if k = SESSION_KEY then some twoOfFiveRecord else none, fun _ => none, none⟩

/-- Witness for C8 at the spec's end-to-end input: two questions answered
out of a configured five yields hasActiveSession, two questions and a
completion rate of 40. -/
theorem stats_shape_witness :
    (getSessionStats 2000 twoOfFiveState).1 = ⟨true, 1000, 2, 40⟩ := by
  have h := (stats_shape 2000 twoOfFiveState).2 twoOfFiveRecord (by decide)
  rw [h]
  simp only [twoOfFiveRecord, SessionStats.mk.injEq]
  norm_num

/-- Identity-scoped session keys never collide with the unscoped primary
key: interview_{u}_session differs from interviewSession for every u. -/
lemma userSessionKey_ne (u : String) : userSessionKey u ≠ SESSION_KEY := by
  intro h
  have h2 : ("interview_" ++ u ++ "_session").data = "interviewSession".data :=
    congrArg String.data h
  have h3 : ("interview_".data ++ (u.data ++ "_session".data)) = "interviewSession".data := by
    simp only [String.data_append, List.append_assoc] at h2
    exact h2
  have h4 := congrArg (fun l => l[9]?) h3
  simp [List.getElem?_append_left] at h4

/-- Identity-scoped backup keys never collide with the unscoped backup
key: interview_{u}_backup differs from interviewSessionBackup for every
u. -/
lemma userBackupKey_ne (u : String) : userBackupKey u ≠ BACKUP_KEY := by
  intro h
  have h2 : ("interview_" ++ u ++ "_backup").data = "interviewSessionBackup".data :=
    congrArg String.data h
  have h3 : ("interview_".data ++ (u.data ++ "_backup".data))
      = "interviewSessionBackup".data := by
    simp only [String.data_append, List.append_assoc] at h2
    exact h2
  have h4 := congrArg (fun l => l[9]?) h3
  simp [List.getElem?_append_left] at h4

/-- States in which no identity-scoped key holds data. -/
def noScopedData (st : StorageState) : Prop :=
  (∀ v, st.sessionStore (userSessionKey v) = none)
    ∧ (∀ v, st.localStore (userBackupKey v) = none)

/-- saveInterviewSession writes only the two unscoped keys, so it keeps
every identity-scoped key empty. -/
lemma save_preserves_noScopedData (now : Int) (s : InterviewSession) (inj : SaveInjection)
    (st : StorageState) (h : noScopedData st) :
    noScopedData (saveInterviewSession now s inj st).state := by
  rcases h with ⟨h1, h2⟩
  rcases inj with ⟨p, b⟩
  cases p with
  | some e => exact ⟨h1, h2⟩
  | none =>
    cases b with
    | some e =>
      refine ⟨fun v => ?_, fun v => ?_⟩
      · simp [saveInterviewSession, saveAttempt, setSessionItem, userSessionKey_ne v, h1 v]
      · simp [saveInterviewSession, saveAttempt, setSessionItem, h2 v]
    | none =>
      refine ⟨fun v => ?_, fun v => ?_⟩
      · simp [saveInterviewSession, saveAttempt, setSessionItem, setLocalItem,
          userSessionKey_ne v, h1 v]
      · simp [saveInterviewSession, saveAttempt, setSessionItem, setLocalItem,
          userBackupKey_ne v, h2 v]

/-- Any sequence of saves keeps the identity-scoped keys empty. -/
lemma applySaves_preserves_noScopedData
    (ops : List (Int × InterviewSession × SaveInjection)) :
    ∀ st, noScopedData st → noScopedData (applySaves ops st) := by
  induction ops with
  | nil => exact fun st h => h
  | cons op rest ih =>
    intro st h
    exact ih _ (save_preserves_noScopedData op.1 op.2.1 op.2.2 st h)

/-- C10: checkInterviewState looks only at the identity-scoped keys while
saveInterviewSession writes only the unscoped keys, and the two key
families never collide; hence after any sequence of saves into empty
storage, checkInterviewState is false for every userId. -/
theorem check_false_after_saves (ops : List (Int × InterviewSession × SaveInjection))
    (u : String) :
    checkInterviewState u (applySaves ops emptyState) = false := by
  have h : noScopedData (applySaves ops emptyState) :=
    applySaves_preserves_noScopedData ops emptyState ⟨fun _ => rfl, fun _ => rfl⟩
  rcases h with ⟨h1, h2⟩
  by_cases hu : u = ""
  · simp [checkInterviewState, hu]
  · simp [checkInterviewState, hu, h1 u, h2 u]

end Interview
